import Mathlib

/-!
Shallow embedding of `highway_env/envs/highway_env.py` (class `HighwayEnv`):
the reward engine, terminal predicate, constraint signal, difficulty-level
selection, configuration merge and vehicle creation. Python `float` values are
embedded as rationals; fallible Python operations (dict lookup, true division)
return `Except` / pairs with an error component mirroring exception semantics.
-/

namespace HighwayEnv

/-- Errors raised by the Python runtime inside `_reward`: a failed dict lookup
(`KeyError`) and a division by zero (`ZeroDivisionError`). -/
inductive PyError where
  | keyError : PyError
  | zeroDivisionError : PyError
deriving DecidableEq, Repr

instance {ε α : Type} [DecidableEq ε] [DecidableEq α] : DecidableEq (Except ε α) := fun x y =>
  match x, y with
  | Except.ok a, Except.ok b =>
      if h : a = b then isTrue (by rw [h]) else isFalse (fun he => h (Except.ok.inj he))
  | Except.error a, Except.error b =>
      if h : a = b then isTrue (by rw [h]) else isFalse (fun he => h (Except.error.inj he))
  | Except.ok _, Except.error _ => isFalse (fun he => Except.noConfusion he)
  | Except.error _, Except.ok _ => isFalse (fun he => Except.noConfusion he)

/-- Python true division `a / b`: raises `ZeroDivisionError` when `b = 0`. -/
def pydiv (a b : ℚ) : Except PyError ℚ :=
  if b = 0 then Except.error PyError.zeroDivisionError else Except.ok (a / b)

/-- Class constant `COLLISION_REWARD = -1`. -/
def COLLISION_REWARD : ℚ := -1

/-- Class constant `RIGHT_LANE_REWARD = 0.1`. -/
def RIGHT_LANE_REWARD : ℚ := 1 / 10

/-- Class constant `HIGH_VELOCITY_REWARD = 0.4`. -/
def HIGH_VELOCITY_REWARD : ℚ := 2 / 5

/-- Class constant `LANE_CHANGE_REWARD = -0`. -/
def LANE_CHANGE_REWARD : ℚ := -0

/-- The part of the controlled vehicle (`self.vehicle`, an `MDPVehicle`) that
`_reward`, `_is_terminal` and `_constraint` read: `crashed`,
`target_lane_index[2]` (lane-within-segment index), `velocity_index`, and the
class-level bound `SPEED_COUNT`. -/
structure Vehicle where
  crashed : Bool
  target_lane : ℕ
  velocity_index : ℕ
  speed_count : ℕ
deriving DecidableEq, Repr

/-- The dict `action_reward = {0: LANE_CHANGE_REWARD, 1: 0, 2: LANE_CHANGE_REWARD,
3: 0, 4: 0}` built on the first line of `_reward`; `none` is a `KeyError`. -/
def action_reward (a : ℕ) : Option ℚ :=
  if a = 0 then some LANE_CHANGE_REWARD
  else if a = 1 then some 0
  else if a = 2 then some LANE_CHANGE_REWARD
  else if a = 3 then some 0
  else if a = 4 then some 0
  else none

/-- Modelled from the spec: `utils.remap` is not under `src/`; §4.4 step 6
describes it as the affine map sending `x0` to `y0` and `x1` to `y1`, with no
clamping. (Rational division by zero is `0`.) -/
def remap (v x0 x1 y0 y1 : ℚ) : ℚ :=
  y0 + (v - x0) * (y1 - y0) / (x1 - x0)

/-- Embeds `HighwayEnv._reward(action)`. `neighbours` is
`len(self.road.network.all_side_lanes(self.vehicle.lane_index))` and
`collision_reward` is `self.config["collision_reward"]`. Evaluation order
follows the Python source: `state_reward` (both divisions) is computed before
the `action_reward[action]` lookup on the `return` line. -/
def _reward (action : ℕ) (v : Vehicle) (neighbours : ℕ) (collision_reward : ℚ) :
    Except PyError ℚ :=
  match pydiv (RIGHT_LANE_REWARD * v.target_lane) ((neighbours : ℚ) - 1) with
  | Except.error e => Except.error e
  | Except.ok laneTerm =>
    match pydiv (HIGH_VELOCITY_REWARD * v.velocity_index) ((v.speed_count : ℚ) - 1) with
    | Except.error e => Except.error e
    | Except.ok speedTerm =>
      let state_reward : ℚ :=
        collision_reward * (if v.crashed then 1 else 0) + laneTerm + speedTerm
      match action_reward action with
      | none => Except.error PyError.keyError
      | some ar =>
          Except.ok (remap (ar + state_reward)
            collision_reward (HIGH_VELOCITY_REWARD + RIGHT_LANE_REWARD) 0 1)

/-- Embeds `HighwayEnv._is_terminal()`:
`self.vehicle.crashed or self.steps >= self.config["duration"]`. -/
def _is_terminal (crashed : Bool) (steps duration : ℕ) : Bool :=
  crashed || decide (duration ≤ steps)

/-- Embeds `HighwayEnv._constraint(action)`: `float(self.vehicle.crashed)`. -/
def _constraint (action : ℕ) (crashed : Bool) : ℚ :=
  if crashed then 1 else 0

/-- A Python value stored in the configuration dict: the profiles hold ints,
strings and a list of floats (`centering_position`). -/
inductive Value where
  | int : ℤ → Value
  | str : String → Value
  | rlist : List ℚ → Value
deriving DecidableEq, Repr

/-- A Python dict with string keys, as a partial map. -/
def Config : Type := String → Option Value

/-- A dict literal: first binding of a key wins (profile literals have
distinct keys, so this agrees with Python). -/
def Config.ofList (l : List (String × Value)) : Config :=
  fun k => (l.find? (fun p => p.1 == k)).map (fun p => p.2)

/-- Python `dict.update(o)`: every key of `o` is overwritten, the rest kept. -/
def Config.update (c o : Config) : Config :=
  fun k =>
    match o k with
    | some v => some v
    | none => c k

/-- The `"EASY"` entry of `DIFFICULTY_LEVELS`. -/
def EASY : List (String × Value) :=
  [("lanes_count", Value.int 2), ("initial_spacing", Value.int 2),
   ("vehicles_count", Value.int 5), ("duration", Value.int 20),
   ("other_vehicles_type", Value.str ("highway_env.vehicle.behavior.IDMVehicle")),
   ("centering_position", Value.rlist [3 / 10, 1 / 2]),
   ("collision_reward", Value.int (-1))]

/-- The `"MEDIUM"` entry of `DIFFICULTY_LEVELS`. -/
def MEDIUM : List (String × Value) :=
  [("lanes_count", Value.int 3), ("initial_spacing", Value.int 2),
   ("vehicles_count", Value.int 10), ("duration", Value.int 30),
   ("other_vehicles_type", Value.str ("highway_env.vehicle.behavior.IDMVehicle")),
   ("centering_position", Value.rlist [3 / 10, 1 / 2]),
   ("collision_reward", Value.int (-1))]

/-- The `"HARD"` entry of `DIFFICULTY_LEVELS`. -/
def HARD : List (String × Value) :=
  [("lanes_count", Value.int 4), ("initial_spacing", Value.int 3),
   ("vehicles_count", Value.int 50), ("duration", Value.int 40),
   ("other_vehicles_type", Value.str ("highway_env.vehicle.behavior.IDMVehicle")),
   ("centering_position", Value.rlist [3 / 10, 1 / 2]),
   ("collision_reward", Value.int (-1))]

/-- The class-level dict `DIFFICULTY_LEVELS`, as an association list. -/
def DIFFICULTY_LEVELS : List (String × List (String × Value)) :=
  [("EASY", EASY), ("MEDIUM", MEDIUM), ("HARD", HARD)]

/-- A vehicle sitting in `road.vehicles`: either the controlled `MDPVehicle`
created by `MDPVehicle.create_random`, or the `i`-th vehicle created by the
resolved behavior type's `create_random`. -/
inductive RoadVehicle where
  | mdp : Vehicle → RoadVehicle
  | other : String → ℕ → RoadVehicle
deriving DecidableEq, Repr

/-- The mutable state of `HighwayEnv` the claims are about: `self.config`,
`self.steps` and the world (`self.road.vehicles`). -/
structure EnvState where
  config : Config
  steps : ℕ
  road_vehicles : List RoadVehicle

/-- The message of the `ValueError` raised by `set_difficulty_level` on an
unknown level: the Python format call interpolating `str(self.DIFFICULTY_LEVELS.keys())` into the message. -/
def invalid_level_message : String :=
  "Invalid difficulty level, choose among dict_keys([\x27EASY\x27, \x27MEDIUM\x27, \x27HARD\x27])"

/-- Embeds `HighwayEnv.set_difficulty_level(level)`. A raised exception is the
`some` case of the second component, and the first component is the object
state after the call (unchanged when the exception fires before any
mutation). `reset` abstracts `self.reset()`, which rebuilds the world from
collaborators outside `src/`. -/
def set_difficulty_level (reset : EnvState → EnvState) (st : EnvState) (level : String) :
    EnvState × Option String :=
  match DIFFICULTY_LEVELS.find? (fun p => p.1 == level) with
  | some p => (reset { st with config := Config.update st.config (Config.ofList p.2) }, none)
  | none => (st, some invalid_level_message)

/-- Embeds `HighwayEnv.configure(config)`: `self.config.update(config)`. -/
def configure (st : EnvState) (config : Config) : EnvState :=
  { st with config := Config.update st.config config }

/-- Embeds `HighwayEnv._create_vehicles()` acting on `self.road.vehicles`.
Modelled from the spec: `MDPVehicle.create_random` and
`utils.class_from_path` are not under `src/`; the former's result is the
parameter `ego`, and §4.3's resolution of the behavior-type reference (which
"fails with UnresolvedBehaviorType" when unresolvable) is the parameter
`resolvable` deciding whether `cfg_other_type` resolves. The append of the
controlled vehicle and the loop order follow the Python source. -/
def _create_vehicles (ego : Vehicle) (resolvable : String → Bool)
    (cfg_other_type : String) (cfg_count : ℕ) (vehicles : List RoadVehicle) :
    List RoadVehicle × Option String :=
  let vs := vehicles ++ [RoadVehicle.mdp ego]
  if resolvable cfg_other_type then
    (vs ++ (List.range cfg_count).map (RoadVehicle.other cfg_other_type), none)
  else
    (vs, some ("UnresolvedBehaviorType"))

/-- The configuration set by `__init__`: a copy of the `"HARD"` profile, with
`self.steps = 0`; the world list starts empty before `reset` populates it. -/
def initial_state : EnvState :=
  { config := Config.ofList HARD, steps := 0, road_vehicles := [] }

/-- A sample override mapping used to exercise `configure`. -/
def sample_overrides : Config :=
  Config.ofList [("vehicles_count", Value.int 20)]

end HighwayEnv

namespace HighwayEnv

/-- For every in-range action the `action_reward` dict yields `0`, because
`LANE_CHANGE_REWARD = -0 = 0`. -/
theorem action_reward_eq_zero {a : ℕ} (ha : a < 5) : action_reward a = some 0 := by
  interval_cases a <;> norm_num [action_reward, LANE_CHANGE_REWARD]

/-- The affine remap onto `[0, 1]` stays in `[0, 1]` whenever the collision
penalty is nonpositive and the raw value lies between the remap endpoints. -/
theorem remap_unit_mem {raw cr : ℚ} (hcr : cr ≤ 0) (hlo : cr ≤ raw)
    (hhi : raw ≤ HIGH_VELOCITY_REWARD + RIGHT_LANE_REWARD) :
    0 ≤ remap raw cr (HIGH_VELOCITY_REWARD + RIGHT_LANE_REWARD) 0 1 ∧
      remap raw cr (HIGH_VELOCITY_REWARD + RIGHT_LANE_REWARD) 0 1 ≤ 1 := by
  have hd : (0 : ℚ) < HIGH_VELOCITY_REWARD + RIGHT_LANE_REWARD - cr := by
    norm_num [HIGH_VELOCITY_REWARD, RIGHT_LANE_REWARD]
    linarith
  constructor
  · have h0 : 0 ≤ (raw - cr) * (1 - 0) / (HIGH_VELOCITY_REWARD + RIGHT_LANE_REWARD - cr) := by
      apply div_nonneg
      · nlinarith
      · linarith
    simpa [remap] using h0
  · have h1 : (raw - cr) * (1 - 0) / (HIGH_VELOCITY_REWARD + RIGHT_LANE_REWARD - cr) ≤ 1 := by
      rw [div_le_one hd]
      nlinarith
    simpa [remap] using h1

/-- C2: the spec requires the lane term to be special-cased to `0` on a
single-lane road, but on a road where `all_side_lanes` returns one lane the
code divides by `len(neighbours) - 1 = 0` and raises `ZeroDivisionError`. -/
theorem C2_single_lane_zero_division :
    _reward 1 ⟨false, 0, 0, 3⟩ 1 COLLISION_REWARD = Except.error PyError.zeroDivisionError := by
  norm_num [_reward, pydiv]

/-- C4: the terminal predicate holds iff the controlled agent crashed or the
step counter reached the configured duration; absent a crash it is false at
steps `1..D-1` and true exactly at step `D`. -/
theorem C4_terminal_predicate (c : Bool) (steps D : ℕ) :
    (_is_terminal c steps D = true ↔ (c = true ∨ D ≤ steps)) ∧
      (c = false → 1 ≤ steps → steps < D → _is_terminal c steps D = false) ∧
      _is_terminal false D D = true := by
  refine ⟨?_, ?_, ?_⟩
  · cases c <;> simp [_is_terminal]
  · intro hc _ hlt
    subst hc
    simp only [_is_terminal, Bool.false_or, decide_eq_false_iff_not]
    omega
  · simp [_is_terminal]

theorem C4_terminal_predicate_witness :
    _is_terminal false 39 40 = false ∧ _is_terminal false 40 40 = true :=
  ⟨(C4_terminal_predicate false 39 40).2.1 rfl (by norm_num) (by norm_num),
   (C4_terminal_predicate false 40 40).2.2⟩

/-- C5: the constraint signal is `1.0` exactly when the controlled agent has
crashed and `0.0` otherwise, for every action. -/
theorem C5_constraint_signal (a : ℕ) (c : Bool) :
    (_constraint a c = 1 ↔ c = true) ∧ (_constraint a c = 0 ↔ c = false) := by
  cases c <;> norm_num [_constraint]

/-- C7 (amended): when the behavior-type reference does not resolve,
`_create_vehicles` fails with `UnresolvedBehaviorType` and adds no autonomous
agent, but the controlled agent has already been appended: the road's vehicle
list gains exactly the controlled agent. -/
theorem C7_unresolved_behavior_aborts (ego : Vehicle) (resolvable : String → Bool)
    (t : String) (n : ℕ) (vs : List RoadVehicle) (h : resolvable t = false) :
    _create_vehicles ego resolvable t n vs =
      (vs ++ [RoadVehicle.mdp ego], some ("UnresolvedBehaviorType")) := by
  simp [_create_vehicles, h]

theorem C7_unresolved_behavior_aborts_witness :
    _create_vehicles ⟨false, 0, 0, 3⟩ (fun _ => false) "no.such.module.Type" 50 [] =
      ([RoadVehicle.mdp ⟨false, 0, 0, 3⟩], some ("UnresolvedBehaviorType")) :=
  C7_unresolved_behavior_aborts ⟨false, 0, 0, 3⟩ (fun _ => false) "no.such.module.Type" 50 [] rfl

/-- C7 counterexample: with an unresolvable behavior type, the build fails as
claimed, yet the vehicle list did not stay empty — the controlled agent was
appended before the resolution failure, so the road is partially populated. -/
theorem C7_partial_population_counterexample :
    ((_create_vehicles ⟨false, 0, 0, 3⟩ (fun _ => false) "no.such.module.Type" 50 []).2 =
        some ("UnresolvedBehaviorType")) ∧
      (_create_vehicles ⟨false, 0, 0, 3⟩ (fun _ => false) "no.such.module.Type" 50 []).1 ≠ [] := by
  constructor
  · simp [_create_vehicles]
  · simp [_create_vehicles]

/-- C8: `configure` merges exactly the override keys into the configuration —
overridden keys take the override value, all other keys keep their value, no
key is removed — and neither the step counter nor the world is touched. -/
theorem C8_configure_merge (st : EnvState) (o : Config) :
    (∀ k, o k = none → (configure st o).config k = st.config k) ∧
      (∀ k v, o k = some v → (configure st o).config k = some v) ∧
      (∀ k, st.config k ≠ none → (configure st o).config k ≠ none) ∧
      (configure st o).steps = st.steps ∧
      (configure st o).road_vehicles = st.road_vehicles := by
  refine ⟨?_, ?_, ?_, rfl, rfl⟩
  · intro k hk
    simp [configure, Config.update, hk]
  · intro k v hk
    simp [configure, Config.update, hk]
  · intro k hk
    cases ho : o k
    · simpa [configure, Config.update, ho] using hk
    · simp [configure, Config.update, ho]

theorem C8_configure_merge_witness :
    (configure initial_state sample_overrides).config ("duration") =
        initial_state.config ("duration") ∧
      (configure initial_state sample_overrides).config ("vehicles_count") =
        some (Value.int 20) ∧
      (configure initial_state sample_overrides).steps = initial_state.steps ∧
      (configure initial_state sample_overrides).road_vehicles = initial_state.road_vehicles :=
  ⟨(C8_configure_merge initial_state sample_overrides).1 ("duration") rfl,
   (C8_configure_merge initial_state sample_overrides).2.1 ("vehicles_count") (Value.int 20) rfl,
   (C8_configure_merge initial_state sample_overrides).2.2.2.1,
   (C8_configure_merge initial_state sample_overrides).2.2.2.2⟩

/-- C1: for an uncrashed controlled agent in lane `L` at speed index `S`, on a
road whose side-lane query returns `N > 1` lanes, every hold-type action
(`1`, `3`, `4`) yields exactly the affine remap of
`RIGHT_LANE_REWARD·L/(N-1) + HIGH_VELOCITY_REWARD·S/(SPEED_COUNT-1)` from
`[collision_reward, RIGHT_LANE_REWARD + HIGH_VELOCITY_REWARD]` onto `[0, 1]`. -/
theorem C1_reward_hold_actions (a L S SC N : ℕ) (cr : ℚ)
    (ha : a = 1 ∨ a = 3 ∨ a = 4) (hN : 1 < N) (hSC : SC ≠ 1) :
    _reward a ⟨false, L, S, SC⟩ N cr =
      Except.ok (remap (RIGHT_LANE_REWARD * L / ((N : ℚ) - 1) +
          HIGH_VELOCITY_REWARD * S / ((SC : ℚ) - 1))
        cr (RIGHT_LANE_REWARD + HIGH_VELOCITY_REWARD) 0 1) := by
  have hN0 : ((N : ℚ) - 1) ≠ 0 := by
    have h2 : (1 : ℚ) < (N : ℚ) := by exact_mod_cast hN
    intro h
    linarith
  have hSC0 : ((SC : ℚ) - 1) ≠ 0 := by
    intro h
    exact hSC (by exact_mod_cast (by linarith : (SC : ℚ) = 1))
  rcases ha with rfl | rfl | rfl <;>
    · simp only [_reward, pydiv, if_neg hN0, if_neg hSC0, action_reward, remap]
      norm_num [RIGHT_LANE_REWARD, HIGH_VELOCITY_REWARD]

theorem C1_reward_hold_actions_witness :
    _reward 1 ⟨false, 1, 1, 3⟩ 2 (-1) =
      Except.ok (remap (RIGHT_LANE_REWARD * ((1 : ℕ) : ℚ) / (((2 : ℕ) : ℚ) - 1) +
          HIGH_VELOCITY_REWARD * ((1 : ℕ) : ℚ) / (((3 : ℕ) : ℚ) - 1))
        (-1) (RIGHT_LANE_REWARD + HIGH_VELOCITY_REWARD) 0 1) :=
  C1_reward_hold_actions 1 1 1 3 2 (-1) (Or.inl rfl) (by norm_num) (by norm_num)

/-- C3 counterexample: the reward is not always in `[0, 1]`. With the
override-reachable configuration `collision_reward = 1`, an uncrashed agent in
lane `0` at speed index `0` on a two-lane road gets reward `2` from the
unclamped remap. -/
theorem C3_reward_outside_unit_counterexample :
    _reward 1 ⟨false, 0, 0, 2⟩ 2 1 = Except.ok 2 ∧ ¬((0 : ℚ) ≤ 2 ∧ (2 : ℚ) ≤ 1) := by
  constructor
  · norm_num [_reward, pydiv, action_reward, remap, RIGHT_LANE_REWARD, HIGH_VELOCITY_REWARD]
  · norm_num

/-- C3 (amended): for every in-range action, a configuration with nonpositive
collision penalty, and a reachable agent state (lane index at most `N-1`,
speed index at most `SPEED_COUNT-1`, at least two lanes and two speed levels),
the reward computation returns a value in `[0, 1]`. -/
theorem C3_reward_unit_interval (a : ℕ) (v : Vehicle) (N : ℕ) (cr : ℚ)
    (ha : a < 5) (hcr : cr ≤ 0) (hN : 2 ≤ N) (hL : v.target_lane ≤ N - 1)
    (hSC : 2 ≤ v.speed_count) (hS : v.velocity_index ≤ v.speed_count - 1) :
    ∃ r : ℚ, _reward a v N cr = Except.ok r ∧ 0 ≤ r ∧ r ≤ 1 := by
  obtain ⟨crashed, L, S, SC⟩ := v
  simp only at hL hS hSC
  have hN0 : (0 : ℚ) < (N : ℚ) - 1 := by
    have h2 : (2 : ℚ) ≤ (N : ℚ) := by exact_mod_cast hN
    linarith
  have hSC0 : (0 : ℚ) < (SC : ℚ) - 1 := by
    have h2 : (2 : ℚ) ≤ (SC : ℚ) := by exact_mod_cast hSC
    linarith
  have hLq : (L : ℚ) ≤ (N : ℚ) - 1 := by
    have h1 : (L : ℚ) ≤ ((N - 1 : ℕ) : ℚ) := by exact_mod_cast hL
    rwa [Nat.cast_sub (by omega), Nat.cast_one] at h1
  have hSq : (S : ℚ) ≤ (SC : ℚ) - 1 := by
    have h1 : (S : ℚ) ≤ ((SC - 1 : ℕ) : ℚ) := by exact_mod_cast hS
    rwa [Nat.cast_sub (by omega), Nat.cast_one] at h1
  have hlane0 : 0 ≤ RIGHT_LANE_REWARD * (L : ℚ) / ((N : ℚ) - 1) := by
    apply div_nonneg _ hN0.le
    exact mul_nonneg (by norm_num [RIGHT_LANE_REWARD]) (Nat.cast_nonneg L)
  have hlane1 : RIGHT_LANE_REWARD * (L : ℚ) / ((N : ℚ) - 1) ≤ RIGHT_LANE_REWARD := by
    rw [div_le_iff₀ hN0]
    exact mul_le_mul_of_nonneg_left hLq (by norm_num [RIGHT_LANE_REWARD])
  have hspeed0 : 0 ≤ HIGH_VELOCITY_REWARD * (S : ℚ) / ((SC : ℚ) - 1) := by
    apply div_nonneg _ hSC0.le
    exact mul_nonneg (by norm_num [HIGH_VELOCITY_REWARD]) (Nat.cast_nonneg S)
  have hspeed1 : HIGH_VELOCITY_REWARD * (S : ℚ) / ((SC : ℚ) - 1) ≤ HIGH_VELOCITY_REWARD := by
    rw [div_le_iff₀ hSC0]
    exact mul_le_mul_of_nonneg_left hSq (by norm_num [HIGH_VELOCITY_REWARD])
  have hred : _reward a ⟨crashed, L, S, SC⟩ N cr =
      Except.ok (remap (0 + (cr * (if crashed then (1 : ℚ) else 0) +
          RIGHT_LANE_REWARD * (L : ℚ) / ((N : ℚ) - 1) +
          HIGH_VELOCITY_REWARD * (S : ℚ) / ((SC : ℚ) - 1)))
        cr (HIGH_VELOCITY_REWARD + RIGHT_LANE_REWARD) 0 1) := by
    simp only [_reward, pydiv, if_neg hN0.ne', if_neg hSC0.ne', action_reward_eq_zero ha]
  rw [hred]
  refine ⟨_, rfl, ?_⟩
  apply remap_unit_mem hcr
  · cases crashed <;> simp <;> linarith
  · cases crashed <;> simp <;> linarith

theorem C3_reward_unit_interval_witness :
    ∃ r : ℚ, _reward 1 ⟨false, 1, 1, 3⟩ 2 (-1) = Except.ok r ∧ 0 ≤ r ∧ r ≤ 1 :=
  C3_reward_unit_interval 1 ⟨false, 1, 1, 3⟩ 2 (-1) (by norm_num) (by norm_num)
    (by norm_num) (by decide) (by decide) (by decide)

/-- C6: an unknown difficulty name makes `set_difficulty_level` raise a
`ValueError` whose message enumerates every registered level, while the
configuration, the world and the step counter are left exactly as they were. -/
theorem C6_invalid_level_error (reset : EnvState → EnvState) (st : EnvState) (level : String)
    (h1 : level ≠ "EASY") (h2 : level ≠ "MEDIUM") (h3 : level ≠ "HARD") :
    set_difficulty_level reset st level = (st, some invalid_level_message) ∧
      (∀ n ∈ ["EASY", "MEDIUM", "HARD"], ∃ p s, invalid_level_message = p ++ (n ++ s)) := by
  constructor
  · have e1 : (("EASY" : String) == level) = false := beq_eq_false_iff_ne.mpr (Ne.symm h1)
    have e2 : (("MEDIUM" : String) == level) = false := beq_eq_false_iff_ne.mpr (Ne.symm h2)
    have e3 : (("HARD" : String) == level) = false := beq_eq_false_iff_ne.mpr (Ne.symm h3)
    simp [set_difficulty_level, DIFFICULTY_LEVELS, List.find?, e1, e2, e3]
  · intro n hn
    simp only [List.mem_cons, List.not_mem_nil, or_false] at hn
    rcases hn with rfl | rfl | rfl
    · exact ⟨"Invalid difficulty level, choose among dict_keys([\x27",
        "\x27, \x27MEDIUM\x27, \x27HARD\x27])", rfl⟩
    · exact ⟨"Invalid difficulty level, choose among dict_keys([\x27EASY\x27, \x27",
        "\x27, \x27HARD\x27])", rfl⟩
    · exact ⟨"Invalid difficulty level, choose among dict_keys([\x27EASY\x27, \x27MEDIUM\x27, \x27",
        "\x27])", rfl⟩

theorem C6_invalid_level_error_witness :
    set_difficulty_level id initial_state ("BRUTAL") = (initial_state, some invalid_level_message) ∧
      (∀ n ∈ ["EASY", "MEDIUM", "HARD"], ∃ p s, invalid_level_message = p ++ (n ++ s)) :=
  C6_invalid_level_error id initial_state ("BRUTAL") (by decide) (by decide) (by decide)

/-- C9: with the shipped constant `LANE_CHANGE_REWARD = -0`, every pair of
in-range actions produces the same reward in every fixed state, lane context
and configuration: the reward is independent of the action. -/
theorem C9_reward_action_independent (a b : ℕ) (ha : a < 5) (hb : b < 5)
    (v : Vehicle) (N : ℕ) (cr : ℚ) :
    _reward a v N cr = _reward b v N cr := by
  simp only [_reward, action_reward_eq_zero ha, action_reward_eq_zero hb]

theorem C9_reward_action_independent_witness :
    _reward 0 ⟨true, 1, 2, 3⟩ 4 (-1) = _reward 2 ⟨true, 1, 2, 3⟩ 4 (-1) :=
  C9_reward_action_independent 0 2 (by norm_num) (by norm_num) ⟨true, 1, 2, 3⟩ 4 (-1)

/-- C10 counterexample: for an out-of-range action on a single-lane road the
computation fails with `ZeroDivisionError`, not with the claimed lookup error —
the state terms are evaluated before the `action_reward[action]` lookup. -/
theorem C10_out_of_range_counterexample :
    _reward 7 ⟨false, 0, 0, 3⟩ 1 (-1) = Except.error PyError.zeroDivisionError ∧
      (Except.error PyError.zeroDivisionError : Except PyError ℚ) ≠
        Except.error PyError.keyError := by
  constructor
  · norm_num [_reward, pydiv]
  · intro h
    exact PyError.noConfusion (Except.error.inj h)

/-- C10 (amended): whenever the state terms evaluate (neither the lane-count
denominator nor the speed-count denominator is zero), `_reward` fails with the
dict lookup error exactly on actions outside `{0, 1, 2, 3, 4}`, and the
`action_reward` lookup succeeds exactly on that set. -/
theorem C10_action_table_domain (a : ℕ) (v : Vehicle) (N : ℕ) (cr : ℚ)
    (hN : N ≠ 1) (hSC : v.speed_count ≠ 1) :
    ((action_reward a).isSome ↔ a < 5) ∧
      (5 ≤ a → _reward a v N cr = Except.error PyError.keyError) := by
  have hN0 : ((N : ℚ) - 1) ≠ 0 := by
    intro h
    exact hN (by exact_mod_cast (by linarith : (N : ℚ) = 1))
  have hSC0 : ((v.speed_count : ℚ) - 1) ≠ 0 := by
    intro h
    exact hSC (by exact_mod_cast (by linarith : (v.speed_count : ℚ) = 1))
  constructor
  · unfold action_reward
    split_ifs <;> simp <;> omega
  · intro ha
    have har : action_reward a = none := by
      simp only [action_reward,
        if_neg (by omega : ¬a = 0), if_neg (by omega : ¬a = 1),
        if_neg (by omega : ¬a = 2), if_neg (by omega : ¬a = 3),
        if_neg (by omega : ¬a = 4)]
    simp only [_reward, pydiv, if_neg hN0, if_neg hSC0, har]

theorem C10_action_table_domain_witness :
    _reward 7 ⟨false, 0, 0, 3⟩ 2 (-1) = Except.error PyError.keyError :=
  (C10_action_table_domain 7 ⟨false, 0, 0, 3⟩ 2 (-1) (by norm_num) (by norm_num)).2
    (by norm_num)

end HighwayEnv
